import Mathlib

/-!
Shallow embedding of the LoRaWAN sensor simulator value-synthesis engine
(`src/simulator/sensor_simulator.py` together with the configuration tables
of `src/simulator/config.py` and the per-round driver loop of
`src/simulator/main.py`).

Randomness is made explicit: every call to Python's `random.random()`,
`random.uniform(a, b)`, `random.gauss(mu, sigma)` and `random.choice([-1, 1])`
is modelled by a field of a `Draws` record.  `random.uniform(a, b)` is
`a + (b - a) * t` for a draw `t` of `random.random()` (this is exactly how
CPython implements it); `random.gauss` outcomes are modelled by an
unconstrained standard-normal coordinate `z`, the sample being
`mu + sigma * z`.  Floating-point numbers are idealised: plain arithmetic is
carried out in `ℝ` (in `ℚ` for the scenario-selection walk, which is purely
rational), and `math.sin` / `math.cos` / `math.pi` become `Real.sin` /
`Real.cos` / `Real.pi`.
-/

namespace LoraSim

/-- Severity tier returned by `_calculate_sensor_status`. -/
inductive Status : Type
  | normal
  | warning
  | critical
deriving DecidableEq, Repr

/-- The seven sensor types of `SimulatorConfig.SENSOR_RANGES` (config.py, lines 57-114). -/
inductive SensorType : Type
  | soil_moisture
  | soil_ph
  | air_temperature
  | air_humidity
  | light_intensity
  | rainfall
  | wind_speed
deriving DecidableEq, Repr

/-- One row of `SimulatorConfig.SENSOR_RANGES`. -/
structure Profile : Type where
  min : ℚ
  max : ℚ
  critical_min : ℚ
  critical_max : ℚ
  unit : String
  variation : ℚ
deriving DecidableEq, Repr

/-- `SimulatorConfig.SENSOR_RANGES` (config.py, lines 57-114). -/
def SENSOR_RANGES : SensorType → Profile
  | .soil_moisture   => ⟨15, 85, 25, 85, "%", 5⟩
  | .soil_ph         => ⟨5, 8, 5.5, 7.5, "pH", 0.3⟩
  | .air_temperature => ⟨5, 35, 2, 40, "°C", 3⟩
  | .air_humidity    => ⟨30, 90, 20, 95, "%", 8⟩
  | .light_intensity => ⟨1000, 80000, 500, 90000, "lux", 5000⟩
  | .rainfall        => ⟨0, 25, 0, 50, "mm", 2⟩
  | .wind_speed      => ⟨0, 80, 3.6, 36, "km/h", 3⟩

/-- `SimulatorConfig.SCENARIOS` (config.py, lines 117-122), in declaration
(= Python dict insertion) order. -/
def SCENARIOS : List (String × ℚ) :=
  [("normal", 0.75), ("drought", 0.10), ("rainy", 0.10), ("extreme_temp", 0.05)]

/-- `SimulatorConfig.ENABLE_RANDOM_VARIATIONS` (config.py, line 52). -/
def ENABLE_RANDOM_VARIATIONS : Bool := true

/-- The loop body of `_select_scenario` (sensor_simulator.py, lines 69-73):
walk the table accumulating `cumulative`, return the first scenario with
`rand ≤ cumulative`; `none` when the loop falls through without a `break`. -/
def select_scenario_walk (rand : ℚ) : List (String × ℚ) → ℚ → Option String
  | [], _ => none
  | (scenario, probability) :: rest, cumulative =>
    if rand ≤ cumulative + probability then some scenario
    else select_scenario_walk rand rest (cumulative + probability)

/-- `_select_scenario` (sensor_simulator.py, lines 64-73) as a function of the
weight table, the `random.random()` draw and the previous value of
`self.current_scenario`: when the loop never hits `break`, `current_scenario`
is simply left at its previous value. -/
def select_scenario (table : List (String × ℚ)) (rand : ℚ) (prev : String) : String :=
  (select_scenario_walk rand table 0).getD prev

/-- Cumulative sums of a weight table: each scenario paired with the running
sum of the weights up to and including it. -/
def cumulative_weights : List (String × ℚ) → ℚ → List (String × ℚ)
  | [], _ => []
  | (scenario, probability) :: rest, acc =>
    (scenario, acc + probability) :: cumulative_weights rest (acc + probability)

/-- Modelled from the spec wording of the (amended) scenario-selection
contract: the first scenario whose cumulative sum is ≥ the draw; when no
cumulative sum reaches the draw, the previous scenario is kept. -/
def select_scenario_spec (table : List (String × ℚ)) (rand : ℚ) (prev : String) : String :=
  match ((cumulative_weights table 0).filter (fun e => rand ≤ e.2)).head? with
  | some e => e.1
  | none => prev

/-- The explicit randomness consumed by one `generate_sensor_data` call, one
field per `random.*` call site of sensor_simulator.py.  `t*` fields stand for
`random.random()` outcomes feeding `random.uniform`, `z*` for standard-normal
coordinates feeding `random.gauss`, `d*` for `random.choice([-1, 1])`. -/
structure Draws : Type where
  tScenario : ℚ   -- random.random(), line 66
  zBase : ℝ       -- random.gauss, lines 83/95/109/121 (one per execution)
  tBase : ℝ       -- random.uniform in _generate_base_value (one per execution)
  tNight : ℝ      -- random.uniform(0, 100), line 172 (light at night)
  dInit : ℤ       -- random.choice([-1, 1]), line 188
  tTrend : ℝ      -- random.uniform(0.1, 0.3), line 199
  dReroll : ℤ     -- random.choice([-1, 1]), line 203
  tJitter : ℝ     -- random.uniform(-variation, variation), line 221
  tQual : ℝ       -- random.uniform(95, 100), line 254
  tQualPen : ℝ    -- random.uniform in the quality penalty, lines 258/260
  tBatt : ℝ       -- random.uniform(0.05, 0.15), line 272
  tSig : ℝ        -- random.uniform(-80, -40), line 283
  tSigPen : ℝ     -- random.uniform in the signal penalty, lines 287/289

/-- The draws lie in the ranges `random.random()` and `random.choice([-1, 1])`
can produce. -/
def Draws.Valid (r : Draws) : Prop :=
  0 ≤ r.tScenario ∧ r.tScenario < 1 ∧
  0 ≤ r.tBase ∧ r.tBase ≤ 1 ∧
  0 ≤ r.tNight ∧ r.tNight ≤ 1 ∧
  (r.dInit = -1 ∨ r.dInit = 1) ∧
  0 ≤ r.tTrend ∧ r.tTrend ≤ 1 ∧
  (r.dReroll = -1 ∨ r.dReroll = 1) ∧
  0 ≤ r.tJitter ∧ r.tJitter ≤ 1 ∧
  0 ≤ r.tQual ∧ r.tQual ≤ 1 ∧
  0 ≤ r.tQualPen ∧ r.tQualPen ≤ 1 ∧
  0 ≤ r.tBatt ∧ r.tBatt ≤ 1 ∧
  0 ≤ r.tSig ∧ r.tSig ≤ 1 ∧
  0 ≤ r.tSigPen ∧ r.tSigPen ≤ 1

/-- The mutable state of a `SensorSimulator` instance (`__init__`, lines 18-21,
plus the dynamic `_battery_{id}` attributes of lines 271-276; `battery` maps
each id to the stored float, `getattr` default `100`). -/
structure EngineState : Type where
  current_scenario : String
  last_values : ℕ → Option ℝ
  trend_direction : ℕ → Option ℤ
  battery : ℕ → ℝ

/-- A freshly constructed `SensorSimulator`. -/
def initState : EngineState :=
  { current_scenario := "normal"
    last_values := fun _ => none
    trend_direction := fun _ => none
    battery := fun _ => 100 }

noncomputable section

/-- CPython `random.uniform(a, b) = a + (b - a) * random.random()`. -/
def uniform (a b t : ℝ) : ℝ := a + (b - a) * t

/-- `random.gauss(mu, sigma)` as `mu + sigma * z` for a standard-normal `z`. -/
def gauss (mu sigma z : ℝ) : ℝ := mu + sigma * z

/-- `_generate_base_value` (sensor_simulator.py, lines 75-123), as a function
of `self.current_scenario`, the sensor type and the draws. -/
def generate_base_value (scenario : String) (ty : SensorType) (r : Draws) : ℝ :=
  let lo : ℝ := (SENSOR_RANGES ty).min
  let hi : ℝ := (SENSOR_RANGES ty).max
  if scenario = "normal" then
    gauss ((lo + hi) / 2) ((hi - lo) / 6) r.zBase
  else if scenario = "drought" then
    if ty = .soil_moisture then uniform lo (lo + 10) r.tBase
    else if ty = .air_temperature then uniform (hi - 5) hi r.tBase
    else gauss ((lo + hi) / 2) ((hi - lo) / 6) r.zBase
  else if scenario = "rainy" then
    if ty = .soil_moisture then uniform (hi - 10) hi r.tBase
    else if ty = .air_temperature then uniform lo (lo + 5) r.tBase
    else if ty = .rainfall then uniform 5 hi r.tBase
    else gauss ((lo + hi) / 2) ((hi - lo) / 6) r.zBase
  else if scenario = "extreme_temp" then
    if ty = .air_temperature then uniform (hi - 2) (hi + 5) r.tBase
    else if ty = .soil_moisture then uniform lo (lo + 15) r.tBase
    else gauss ((lo + hi) / 2) ((hi - lo) / 6) r.zBase
  else
    uniform lo hi r.tBase

/-- The hourly temperature modifier of `_apply_time_effects`
(sensor_simulator.py, lines 132-151), for configured `min_hour`, `max_hour`
and daily `variation`. -/
def temp_modifier_with (min_hour max_hour : ℕ) (variation : ℝ) (hour : ℕ) : ℝ :=
  if min_hour ≤ hour ∧ hour ≤ max_hour then
    Real.sin (((hour : ℝ) - min_hour) / ((max_hour : ℝ) - min_hour) * Real.pi) * variation / 2
  else if hour < min_hour then
    -Real.cos ((hour : ℝ) / min_hour * Real.pi) * variation / 2
  else
    -Real.cos (((hour : ℝ) - max_hour) / (24 - (max_hour : ℝ)) * Real.pi) * variation / 2

/-- The hourly temperature modifier with the configured
`TIME_EFFECTS['hourly']['temperature']` values `min_hour = 6`, `max_hour = 14`,
`variation = 8` (config.py, lines 127-131). -/
def temp_modifier (hour : ℕ) : ℝ := temp_modifier_with 6 14 8 hour

/-- The seasonal temperature offset of `_apply_time_effects`
(sensor_simulator.py, lines 174-179) with the configured
`TIME_EFFECTS['seasonal']` table (config.py, lines 138-143): the loop walks
spring, summer, autumn, winter in declaration order and breaks on the first
season containing the month; no season matching means no offset. -/
def seasonal_modifier (month : ℕ) : ℝ :=
  if month ∈ [3, 4, 5] then 0
  else if month ∈ [6, 7, 8] then 8
  else if month ∈ [9, 10, 11] then 2
  else if month ∈ [12, 1, 2] then -5
  else 0

/-- `_apply_time_effects` (sensor_simulator.py, lines 125-181), with the
configured light parameters `sunrise_hour = 6`, `sunset_hour = 18`,
`max_intensity = 80000` (config.py, lines 132-136).  The seasonal loop only
ever changes `air_temperature` values. -/
def apply_time_effects (ty : SensorType) (base : ℝ) (hour month : ℕ) (r : Draws) : ℝ :=
  if ty = .air_temperature then
    base + temp_modifier hour + seasonal_modifier month
  else if ty = .light_intensity then
    if 6 ≤ hour ∧ hour ≤ 18 then
      let progress : ℝ :=
        if (hour : ℝ) ≤ (6 + 18) / 2 then
          ((hour : ℝ) - 6) / ((6 + 18) / 2 - 6)
        else
          1 - ((hour : ℝ) - (6 + 18) / 2) / (18 - (6 + 18) / 2)
      max base (Real.sin (progress * Real.pi) * 80000)
    else
      uniform 0 100 r.tNight
  else
    base

/-- The momentum part of `_apply_trends` (sensor_simulator.py, lines 186-203):
initialise the trend direction when absent, then compare with the last value
and either reinforce the trend or re-roll the direction. -/
def apply_trends_momentum (value : ℝ) (sensor_id : ℕ) (r : Draws) (s : EngineState) :
    ℝ × EngineState :=
  let dir : ℤ := (s.trend_direction sensor_id).getD r.dInit
  let s1 : EngineState :=
    if (s.trend_direction sensor_id).isSome then s
    else { s with trend_direction := fun i => if i = sensor_id then some r.dInit
                                              else s.trend_direction i }
  match s.last_values sensor_id with
  | none => (value, s1)
  | some last_value =>
    let difference := value - last_value
    if (difference > 0 ∧ dir > 0) ∨ (difference < 0 ∧ dir < 0) then
      (value + dir * uniform 0.1 0.3 r.tTrend, s1)
    else
      (value, { s1 with trend_direction := fun i => if i = sensor_id then some r.dReroll
                                                    else s1.trend_direction i })

/-- The dict `self.last_values` is only ever keyed by integer sensor ids
(line 48), so the membership test `'soil_moisture' in self.last_values` of
line 206 is always false. -/
def soil_moisture_key_present (_s : EngineState) : Bool := false

/-- The cross-sensor correlation branch of `_apply_trends`
(sensor_simulator.py, lines 205-211): both arms of the inner test execute
`pass`. -/
def correlation_hook (ty : SensorType) (value : ℝ) (sensor_id : ℕ) (s : EngineState) :
    ℝ × EngineState :=
  if ty = .air_temperature ∧ soil_moisture_key_present s then
    let temp_change := value - ((s.last_values sensor_id).getD value)
    if |temp_change| > 2 then (value, s) else (value, s)
  else
    (value, s)

/-- `_apply_trends` (sensor_simulator.py, lines 183-213): the momentum update
followed by the (inert) correlation branch. -/
def apply_trends (ty : SensorType) (value : ℝ) (sensor_id : ℕ) (r : Draws) (s : EngineState) :
    ℝ × EngineState :=
  let m := apply_trends_momentum value sensor_id r s
  correlation_hook ty m.1 sensor_id m.2

/-- `_add_random_variation` (sensor_simulator.py, lines 215-223), with
`ENABLE_RANDOM_VARIATIONS` as an explicit configuration parameter. -/
def add_random_variation (enabled : Bool) (ty : SensorType) (value : ℝ) (r : Draws) : ℝ :=
  if !enabled then value
  else
    let variation : ℝ := (SENSOR_RANGES ty).variation
    value + uniform (-variation) variation r.tJitter

/-- `_clamp_value` (sensor_simulator.py, lines 225-228). -/
def clamp_value (ty : SensorType) (value : ℝ) : ℝ :=
  max ((SENSOR_RANGES ty).min : ℝ) (min ((SENSOR_RANGES ty).max : ℝ) value)

/-- `_calculate_sensor_status` (sensor_simulator.py, lines 230-249). -/
def calculate_sensor_status (ty : SensorType) (value : ℝ) : Status :=
  if ty = .soil_moisture then
    if value < 25 ∨ value > 85 then .critical
    else if (value ≥ 25 ∧ value < 40) ∨ (value > 70 ∧ value ≤ 85) then .warning
    else .normal
  else
    if value < ((SENSOR_RANGES ty).critical_min : ℝ) ∨
       value > ((SENSOR_RANGES ty).critical_max : ℝ) then .critical
    else if value < ((SENSOR_RANGES ty).critical_min : ℝ) * 1.2 ∨
            value > ((SENSOR_RANGES ty).critical_max : ℝ) * 0.8 then .warning
    else .normal

/-- Python `int()` applied to a float: truncation toward zero. -/
def pyInt (x : ℝ) : ℤ := if 0 ≤ x then ⌊x⌋ else ⌈x⌉

/-- Nearest integer, ties to even — the rounding Python's `round` applies. -/
def round_half_even (x : ℝ) : ℤ :=
  if x - ⌊x⌋ < 1 / 2 then ⌊x⌋
  else if x - ⌊x⌋ > 1 / 2 then ⌊x⌋ + 1
  else if ⌊x⌋ % 2 = 0 then ⌊x⌋ else ⌊x⌋ + 1

/-- Python `round(x, 3)` (sensor_simulator.py, line 55). -/
def pyRound3 (x : ℝ) : ℝ := (round_half_even (x * 1000) : ℝ) / 1000

/-- The pre-clamp quality score of `_calculate_quality_score`
(sensor_simulator.py, lines 254-260): the `[95, 100]` base draw minus the
scenario penalty. -/
def quality_pre (scenario : String) (r : Draws) : ℝ :=
  let base_score := uniform 95 100 r.tQual
  if scenario = "extreme_temp" then base_score - uniform 5 15 r.tQualPen
  else if scenario = "drought" then base_score - uniform 2 8 r.tQualPen
  else base_score

/-- `_calculate_quality_score` (sensor_simulator.py, lines 251-262), as a
function of `self.current_scenario` and the draws. -/
def calculate_quality_score (scenario : String) (r : Draws) : ℤ :=
  max 50 (min 100 (pyInt (quality_pre scenario r)))

/-- `_simulate_battery_level` (sensor_simulator.py, lines 264-278): returns
the reported integer level and the state with the stored float updated. -/
def simulate_battery_level (sensor_id : ℕ) (r : Draws) (s : EngineState) :
    ℤ × EngineState :=
  if s.last_values sensor_id = none then (100, s)
  else
    let current_battery := s.battery sensor_id - uniform 0.05 0.15 r.tBatt
    let current_battery := max 10 current_battery
    (pyInt current_battery,
      { s with battery := fun i => if i = sensor_id then current_battery else s.battery i })

/-- `_simulate_signal_strength` (sensor_simulator.py, lines 280-291), as a
function of `self.current_scenario` and the draws. -/
def simulate_signal_strength (scenario : String) (r : Draws) : ℤ :=
  let base_rssi := uniform (-80) (-40) r.tSig
  let base_rssi :=
    if scenario = "rainy" then base_rssi - uniform 5 15 r.tSigPen
    else if scenario = "extreme_temp" then base_rssi - uniform 2 8 r.tSigPen
    else base_rssi
  pyInt (max (-120) (min (-30) base_rssi))

/-- The record returned by `generate_sensor_data` (sensor_simulator.py,
lines 53-62); `recorded_at` (a wall-clock timestamp) is omitted. -/
structure Reading : Type where
  sensor_id : ℕ
  value : ℝ
  unit : String
  quality_score : ℤ
  battery_level : ℤ
  signal_strength : ℤ
  status : Status

/-- `generate_sensor_data` (sensor_simulator.py, lines 23-62).  Note the
source's order of effects: `self.last_values[sensor_id]` is assigned at
line 48, before the return dict evaluates `_simulate_battery_level` at
line 58. -/
def generate_sensor_data (enabled : Bool) (ty : SensorType) (sensor_id : ℕ)
    (hour month : ℕ) (r : Draws) (s : EngineState) : Reading × EngineState :=
  let scenario := select_scenario SCENARIOS r.tScenario s.current_scenario
  let s := { s with current_scenario := scenario }
  let base_value := generate_base_value scenario ty r
  let time_adjusted_value := apply_time_effects ty base_value hour month r
  let tr := apply_trends ty time_adjusted_value sensor_id r s
  let final_value := add_random_variation enabled ty tr.1 r
  let final_value := clamp_value ty final_value
  let s := { tr.2 with last_values := fun i => if i = sensor_id then some final_value
                                               else tr.2.last_values i }
  let sensor_status := calculate_sensor_status ty final_value
  let bat := simulate_battery_level sensor_id r s
  ({ sensor_id := sensor_id
     value := pyRound3 final_value
     unit := (SENSOR_RANGES ty).unit
     quality_score := calculate_quality_score scenario r
     battery_level := bat.1
     signal_strength := simulate_signal_strength scenario r
     status := sensor_status },
   bat.2)

/-- One engine invocation requested by the driver loop
(`LoRaWANSimulator.generate_and_save_data`, main.py lines 93-113): the
sensor's type and id, the wall-clock hour and month, and the randomness the
call consumes. -/
structure CallInput : Type where
  ty : SensorType
  sensor_id : ℕ
  hour : ℕ
  month : ℕ
  draws : Draws

/-- The driver loop of `generate_and_save_data` (main.py, lines 99-111):
`generate_sensor_data` is called once per sensor, threading the single
engine state through the round. -/
def run_calls (enabled : Bool) : List CallInput → EngineState → List Reading × EngineState
  | [], s => ([], s)
  | c :: rest, s =>
    let g := generate_sensor_data enabled c.ty c.sensor_id c.hour c.month c.draws s
    let t := run_calls enabled rest g.2
    (g.1 :: t.1, t.2)

/-- The range conditions the spec asserts for a reading produced for a sensor
of type `c.ty` (spec §8, first bullet). -/
def ReadingInRange (c : CallInput) (rd : Reading) : Prop :=
  ((SENSOR_RANGES c.ty).min : ℝ) ≤ rd.value ∧ rd.value ≤ ((SENSOR_RANGES c.ty).max : ℝ) ∧
  50 ≤ rd.quality_score ∧ rd.quality_score ≤ 100 ∧
  10 ≤ rd.battery_level ∧ rd.battery_level ≤ 100 ∧
  -120 ≤ rd.signal_strength ∧ rd.signal_strength ≤ -30

/-- Stored battery floats stay in `[10, 100]`. -/
def BatteryInv (s : EngineState) : Prop :=
  ∀ sensor_id : ℕ, 10 ≤ s.battery sensor_id ∧ s.battery sensor_id ≤ 100

/-- Modelled from the spec wording of the status classifier: `critical` iff
the value escapes the critical bounds, `warning` iff it is not critical and
lies in the warning band, `normal` otherwise; `soil_moisture` uses its
bespoke literal thresholds. -/
def calculate_sensor_status_spec (ty : SensorType) (value : ℝ) : Status :=
  if ty = .soil_moisture then
    if value < 25 ∨ value > 85 then .critical
    else if (25 ≤ value ∧ value < 40) ∨ (70 < value ∧ value ≤ 85) then .warning
    else .normal
  else
    if value < ((SENSOR_RANGES ty).critical_min : ℝ) ∨
       value > ((SENSOR_RANGES ty).critical_max : ℝ) then .critical
    else if ¬(value < ((SENSOR_RANGES ty).critical_min : ℝ) ∨
              value > ((SENSOR_RANGES ty).critical_max : ℝ)) ∧
            (value < ((SENSOR_RANGES ty).critical_min : ℝ) * 1.2 ∨
             value > ((SENSOR_RANGES ty).critical_max : ℝ) * 0.8) then .warning
    else .normal

/-- A concrete randomness record: every `random.random()` outcome `1/2`,
every `random.choice([-1, 1])` outcome `1`, gauss coordinate `0`. -/
def drawsHalf : Draws :=
  { tScenario := 1/2, zBase := 0, tBase := 1/2, tNight := 1/2, dInit := 1,
    tTrend := 1/2, dReroll := 1, tJitter := 1/2, tQual := 1/2, tQualPen := 1/2,
    tBatt := 1/2, tSig := 1/2, tSigPen := 1/2 }

/-- Like `drawsHalf` but with a scenario draw of `9/10`, which the weight
table maps to `rainy`. -/
def drawsRainy : Draws := { drawsHalf with tScenario := 9/10 }

end

/-- A weight table whose weights sum to `0.95 < 1`, the situation the spec's
fallback clause is about. -/
def deficient_table : List (String × ℚ) :=
  [("normal", 0.75), ("drought", 0.10), ("rainy", 0.10)]

/-- A concrete engine state: sensor 1 has last value `5`, trend direction
`+1`, stored battery `100`. -/
noncomputable def trendState : EngineState :=
  { current_scenario := "normal"
    last_values := fun i => if i = 1 then some 5 else none
    trend_direction := fun i => if i = 1 then some 1 else none
    battery := fun _ => 100 }

/-! ## Helper lemmas -/

theorem correlation_hook_eq (ty : SensorType) (value : ℝ) (sensor_id : ℕ) (s : EngineState) :
    correlation_hook ty value sensor_id s = (value, s) := by
  unfold correlation_hook soil_moisture_key_present
  simp

theorem apply_trends_eq_momentum (ty : SensorType) (value : ℝ) (sensor_id : ℕ)
    (r : Draws) (s : EngineState) :
    apply_trends ty value sensor_id r s = apply_trends_momentum value sensor_id r s := by
  unfold apply_trends
  rw [correlation_hook_eq]

theorem apply_trends_momentum_frame (value : ℝ) (sensor_id : ℕ) (r : Draws) (s : EngineState) :
    (apply_trends_momentum value sensor_id r s).2.current_scenario = s.current_scenario ∧
    (apply_trends_momentum value sensor_id r s).2.last_values = s.last_values ∧
    (apply_trends_momentum value sensor_id r s).2.battery = s.battery := by
  unfold apply_trends_momentum
  cases hl : s.last_values sensor_id <;> split_ifs <;>
    simp only [apply_ite EngineState.current_scenario, apply_ite EngineState.last_values,
      apply_ite EngineState.battery, apply_ite Prod.snd] <;> simp

theorem simulate_battery_frame (sensor_id : ℕ) (r : Draws) (s : EngineState) :
    (simulate_battery_level sensor_id r s).2.current_scenario = s.current_scenario ∧
    (simulate_battery_level sensor_id r s).2.last_values = s.last_values := by
  unfold simulate_battery_level
  split_ifs <;> simp

/-! ## C9 — the cross-sensor correlation branch is a no-op -/

/-- C9: the temperature-to-moisture coupling branch of `_apply_trends`
(lines 205-211) changes neither the value being returned nor any field of
the engine state. -/
theorem correlation_branch_noop (ty : SensorType) (value : ℝ) (sensor_id : ℕ)
    (s : EngineState) :
    correlation_hook ty value sensor_id s = (value, s) := by
  unfold correlation_hook soil_moisture_key_present
  simp

/-! ## C3 — scenario selection walk and its missing fallback -/

theorem select_scenario_walk_eq_cumulative (rand : ℚ) :
    ∀ (table : List (String × ℚ)) (acc : ℚ),
      select_scenario_walk rand table acc =
        (((cumulative_weights table acc).filter (fun e => rand ≤ e.2)).head?).map Prod.fst := by
  intro table
  induction table with
  | nil => intro acc; simp [select_scenario_walk, cumulative_weights]
  | cons hd tl ih =>
    intro acc
    obtain ⟨scenario, probability⟩ := hd
    by_cases h : rand ≤ acc + probability
    · simp [select_scenario_walk, cumulative_weights, h]
    · simp [select_scenario_walk, cumulative_weights, h, ih]

/-- C3 (amended): `_select_scenario` walks the weight table in declaration
order and picks the first scenario whose cumulative sum is ≥ the draw; when
no cumulative sum reaches the draw it performs no assignment, leaving
`current_scenario` at its previous value — it does not fall back to the last
scenario of the table. -/
theorem select_scenario_first_match_or_previous
    (table : List (String × ℚ)) (rand : ℚ) (prev : String) :
    select_scenario table rand prev = select_scenario_spec table rand prev := by
  unfold select_scenario select_scenario_spec
  rw [select_scenario_walk_eq_cumulative]
  cases h : (((cumulative_weights table 0).filter (fun e => rand ≤ e.2)).head?) <;> simp [h]

/-- C3 counterexample: with a weight table summing to `0.95` and a draw of
`0.97`, no cumulative sum reaches the draw, and the selection keeps the
previous scenario `"normal"` instead of falling back to the table's last
scenario `"rainy"`. -/
theorem select_scenario_no_fallback_cx :
    select_scenario_walk (97/100) deficient_table 0 = none ∧
    deficient_table.getLast? = some ("rainy", 0.10) ∧
    select_scenario deficient_table (97/100) "normal" = "normal" ∧
    ("normal" : String) ≠ "rainy" := by
  refine ⟨?_, rfl, ?_, by decide⟩
  · norm_num [deficient_table, select_scenario_walk]
  · norm_num [select_scenario, deficient_table, select_scenario_walk]

theorem apply_trends_scenario (ty : SensorType) (value : ℝ) (sensor_id : ℕ)
    (r : Draws) (s : EngineState) :
    (apply_trends ty value sensor_id r s).2.current_scenario = s.current_scenario := by
  rw [apply_trends_eq_momentum]
  exact (apply_trends_momentum_frame value sensor_id r s).1

theorem apply_trends_battery (ty : SensorType) (value : ℝ) (sensor_id : ℕ)
    (r : Draws) (s : EngineState) :
    (apply_trends ty value sensor_id r s).2.battery = s.battery := by
  rw [apply_trends_eq_momentum]
  exact (apply_trends_momentum_frame value sensor_id r s).2.2

theorem simulate_battery_scenario (sensor_id : ℕ) (r : Draws) (s : EngineState) :
    (simulate_battery_level sensor_id r s).2.current_scenario = s.current_scenario :=
  (simulate_battery_frame sensor_id r s).1

/-- The engine state coming out of one `generate_sensor_data` call carries the
scenario selected at the start of that same call. -/
theorem generate_scenario_proj (enabled : Bool) (ty : SensorType) (sensor_id hour month : ℕ)
    (r : Draws) (s : EngineState) :
    (generate_sensor_data enabled ty sensor_id hour month r s).2.current_scenario =
      select_scenario SCENARIOS r.tScenario s.current_scenario := by
  unfold generate_sensor_data
  dsimp only
  rw [simulate_battery_scenario]
  dsimp only
  rw [apply_trends_scenario]

/-! ## C2 — the scenario is re-drawn on every per-sensor call -/

/-- C2 (amended): `generate_sensor_data` re-selects the scenario at the start
of every per-sensor call — in a round over `n` sensors the scenario is drawn
`n` times, each sensor generated under the scenario of its own draw, not one
shared draw per round. -/
theorem scenario_redrawn_every_call (enabled : Bool) (ty : SensorType)
    (sensor_id hour month : ℕ) (r : Draws) (s : EngineState) :
    (generate_sensor_data enabled ty sensor_id hour month r s).2.current_scenario =
      select_scenario SCENARIOS r.tScenario s.current_scenario :=
  generate_scenario_proj enabled ty sensor_id hour month r s

/-- C2 counterexample: one round over sensors 1 and 2 on a fresh engine,
with scenario draws `1/2` and `9/10`: sensor 1 is generated under
`"normal"`, sensor 2 — in the same round — under `"rainy"`. -/
theorem scenario_differs_within_round_cx :
    (generate_sensor_data true .soil_moisture 1 12 6 drawsHalf initState).2.current_scenario
      = "normal" ∧
    (generate_sensor_data true .soil_moisture 2 12 6 drawsRainy
        (generate_sensor_data true .soil_moisture 1 12 6 drawsHalf initState).2).2.current_scenario
      = "rainy" ∧
    ("normal" : String) ≠ "rainy" := by
  have h1 : (generate_sensor_data true .soil_moisture 1 12 6 drawsHalf
      initState).2.current_scenario = "normal" := by
    rw [generate_scenario_proj]
    norm_num [initState, drawsHalf, select_scenario, select_scenario_walk, SCENARIOS]
  refine ⟨h1, ?_, by decide⟩
  rw [generate_scenario_proj, h1]
  norm_num [drawsRainy, drawsHalf, select_scenario, select_scenario_walk, SCENARIOS]

/-! ## C1 — the first reading's battery level -/

theorem simulate_battery_first (sensor_id : ℕ) (r : Draws) (s : EngineState)
    (hsome : s.last_values sensor_id ≠ none) (hbat : s.battery sensor_id = 100)
    (h1 : 0 ≤ r.tBatt) (h2 : r.tBatt ≤ 1) :
    (simulate_battery_level sensor_id r s).1 = 99 := by
  unfold simulate_battery_level
  rw [if_neg hsome]
  dsimp only
  rw [hbat]
  have hu1 : 0.05 ≤ uniform 0.05 0.15 r.tBatt := by unfold uniform; nlinarith
  have hu2 : uniform 0.05 0.15 r.tBatt ≤ 0.15 := by unfold uniform; nlinarith
  have hmax : max (10:ℝ) (100 - uniform 0.05 0.15 r.tBatt) =
      100 - uniform 0.05 0.15 r.tBatt := max_eq_right (by linarith)
  rw [hmax]
  unfold pyInt
  rw [if_pos (by linarith)]
  rw [Int.floor_eq_iff]
  constructor
  · push_cast; linarith
  · push_cast; linarith

/-- C1 (code behavior at the failing input): on the very first
`generate_sensor_data` call for a sensor id, the reported `battery_level` is
`99`, not `100` — `last_values[sensor_id]` is stored at line 48 before the
battery field is computed at line 58, so the first-call guard of
`_simulate_battery_level` never fires and the level is
`int(100 - U(0.05, 0.15)) = 99`. -/
theorem first_call_battery_is_99 (enabled : Bool) (ty : SensorType)
    (sensor_id hour month : ℕ) (r : Draws) (h1 : 0 ≤ r.tBatt) (h2 : r.tBatt ≤ 1) :
    (generate_sensor_data enabled ty sensor_id hour month r initState).1.battery_level = 99 := by
  unfold generate_sensor_data
  dsimp only
  apply simulate_battery_first _ _ _ _ _ h1 h2
  · simp
  · dsimp only
    rw [apply_trends_battery]
    rfl

/-- C1 witness: a concrete first call. -/
theorem first_call_battery_is_99_witness :
    (generate_sensor_data true .soil_moisture 1 12 6 drawsHalf
      initState).1.battery_level = 99 :=
  first_call_battery_is_99 true .soil_moisture 1 12 6 drawsHalf
    (by norm_num [drawsHalf]) (by norm_num [drawsHalf])

/-! ## C4 — range invariants for every reading of every call sequence -/

theorem round_half_even_mem (x : ℝ) :
    ⌊x⌋ ≤ round_half_even x ∧ round_half_even x ≤ ⌈x⌉ := by
  unfold round_half_even
  split_ifs with a b c
  · exact ⟨le_refl _, Int.floor_le_ceil x⟩
  · have hx : (⌊x⌋:ℝ) < x := by linarith
    have hfc : ⌊x⌋ < ⌈x⌉ := by exact_mod_cast lt_of_lt_of_le hx (Int.le_ceil x)
    exact ⟨by omega, by omega⟩
  · exact ⟨le_refl _, Int.floor_le_ceil x⟩
  · have hx : (⌊x⌋:ℝ) < x := by linarith
    have hfc : ⌊x⌋ < ⌈x⌉ := by exact_mod_cast lt_of_lt_of_le hx (Int.le_ceil x)
    exact ⟨by omega, by omega⟩

theorem pyRound3_mem (a b : ℤ) (x : ℝ) (ha : (a:ℝ) ≤ x) (hb : x ≤ (b:ℝ)) :
    (a:ℝ) ≤ pyRound3 x ∧ pyRound3 x ≤ (b:ℝ) := by
  obtain ⟨h1, h2⟩ := round_half_even_mem (x * 1000)
  unfold pyRound3
  have hfl : (1000 * a : ℤ) ≤ ⌊x * 1000⌋ := Int.le_floor.mpr (by push_cast; nlinarith)
  have hcl : ⌈x * 1000⌉ ≤ (1000 * b : ℤ) := Int.ceil_le.mpr (by push_cast; nlinarith)
  have hlo : (1000 * a : ℤ) ≤ round_half_even (x * 1000) := le_trans hfl h1
  have hhi : round_half_even (x * 1000) ≤ (1000 * b : ℤ) := le_trans h2 hcl
  constructor
  · rw [le_div_iff₀ (by norm_num : (0:ℝ) < 1000)]
    calc (a:ℝ) * 1000 = ((1000 * a : ℤ) : ℝ) := by push_cast; ring
    _ ≤ (round_half_even (x * 1000) : ℝ) := by exact_mod_cast hlo
  · rw [div_le_iff₀ (by norm_num : (0:ℝ) < 1000)]
    calc (round_half_even (x * 1000) : ℝ) ≤ ((1000 * b : ℤ) : ℝ) := by exact_mod_cast hhi
    _ = (b:ℝ) * 1000 := by push_cast; ring

theorem clamp_mem (ty : SensorType) (v : ℝ) :
    ((SENSOR_RANGES ty).min : ℝ) ≤ clamp_value ty v ∧
    clamp_value ty v ≤ ((SENSOR_RANGES ty).max : ℝ) := by
  unfold clamp_value
  refine ⟨le_max_left _ _, max_le ?_ (min_le_left _ _)⟩
  cases ty <;> norm_num [SENSOR_RANGES]

theorem ranges_min_max_int (ty : SensorType) :
    ∃ a b : ℤ, ((SENSOR_RANGES ty).min : ℝ) = (a:ℝ) ∧ ((SENSOR_RANGES ty).max : ℝ) = (b:ℝ) := by
  cases ty
  · exact ⟨15, 85, by norm_num [SENSOR_RANGES], by norm_num [SENSOR_RANGES]⟩
  · exact ⟨5, 8, by norm_num [SENSOR_RANGES], by norm_num [SENSOR_RANGES]⟩
  · exact ⟨5, 35, by norm_num [SENSOR_RANGES], by norm_num [SENSOR_RANGES]⟩
  · exact ⟨30, 90, by norm_num [SENSOR_RANGES], by norm_num [SENSOR_RANGES]⟩
  · exact ⟨1000, 80000, by norm_num [SENSOR_RANGES], by norm_num [SENSOR_RANGES]⟩
  · exact ⟨0, 25, by norm_num [SENSOR_RANGES], by norm_num [SENSOR_RANGES]⟩
  · exact ⟨0, 80, by norm_num [SENSOR_RANGES], by norm_num [SENSOR_RANGES]⟩

theorem reading_value_mem (ty : SensorType) (v : ℝ) :
    ((SENSOR_RANGES ty).min : ℝ) ≤ pyRound3 (clamp_value ty v) ∧
    pyRound3 (clamp_value ty v) ≤ ((SENSOR_RANGES ty).max : ℝ) := by
  obtain ⟨h1, h2⟩ := clamp_mem ty v
  obtain ⟨a, b, hA, hB⟩ := ranges_min_max_int ty
  rw [hA] at h1
  rw [hB] at h2
  rw [hA, hB]
  exact pyRound3_mem a b _ h1 h2

theorem quality_mem_50_100 (scenario : String) (r : Draws) :
    50 ≤ calculate_quality_score scenario r ∧ calculate_quality_score scenario r ≤ 100 := by
  unfold calculate_quality_score
  exact ⟨le_max_left _ _, max_le (by norm_num) (min_le_left _ _)⟩

theorem signal_mem (scenario : String) (r : Draws) :
    -120 ≤ simulate_signal_strength scenario r ∧
    simulate_signal_strength scenario r ≤ -30 := by
  unfold simulate_signal_strength
  dsimp only
  set y := (if scenario = "rainy" then uniform (-80) (-40) r.tSig - uniform 5 15 r.tSigPen
    else if scenario = "extreme_temp" then uniform (-80) (-40) r.tSig - uniform 2 8 r.tSigPen
    else uniform (-80) (-40) r.tSig) with hy
  have h1 : (-120:ℝ) ≤ max (-120) (min (-30) y) := le_max_left _ _
  have h2 : max (-120:ℝ) (min (-30) y) ≤ -30 := max_le (by norm_num) (min_le_left _ _)
  unfold pyInt
  rw [if_neg (by linarith : ¬ (0:ℝ) ≤ max (-120) (min (-30) y))]
  constructor
  · exact_mod_cast le_trans h1 (Int.le_ceil _)
  · exact Int.ceil_le.mpr (by exact_mod_cast h2)

theorem batteryInv_congr {s1 s2 : EngineState} (h : s1.battery = s2.battery)
    (hs : BatteryInv s2) : BatteryInv s1 := by
  intro j
  rw [h]
  exact hs j

theorem simulate_battery_mem (sensor_id : ℕ) (r : Draws) (s : EngineState)
    (h1 : 0 ≤ r.tBatt) (h2 : r.tBatt ≤ 1) (hs : BatteryInv s) :
    10 ≤ (simulate_battery_level sensor_id r s).1 ∧
    (simulate_battery_level sensor_id r s).1 ≤ 100 ∧
    BatteryInv (simulate_battery_level sensor_id r s).2 := by
  obtain ⟨hb1, hb2⟩ := hs sensor_id
  unfold simulate_battery_level
  split_ifs with h
  · exact ⟨by norm_num, by norm_num, hs⟩
  · dsimp only
    have hu1 : 0.05 ≤ uniform 0.05 0.15 r.tBatt := by unfold uniform; nlinarith
    have hu2 : uniform 0.05 0.15 r.tBatt ≤ 0.15 := by unfold uniform; nlinarith
    have hc1 : (10:ℝ) ≤ max 10 (s.battery sensor_id - uniform 0.05 0.15 r.tBatt) :=
      le_max_left _ _
    have hc2 : max (10:ℝ) (s.battery sensor_id - uniform 0.05 0.15 r.tBatt) ≤ 100 :=
      max_le (by norm_num) (by linarith)
    refine ⟨?_, ?_, ?_⟩
    · unfold pyInt
      rw [if_pos (by linarith)]
      exact Int.le_floor.mpr (by exact_mod_cast hc1)
    · unfold pyInt
      rw [if_pos (by linarith)]
      simpa using Int.floor_le_floor hc2
    · intro j
      dsimp only
      by_cases hj : j = sensor_id
      · simp only [hj, if_pos rfl]
        exact ⟨hc1, hc2⟩
      · simp only [if_neg hj]
        exact hs j

/-- Decompose one `generate_sensor_data` call into the stage outputs its
reading is assembled from. -/
theorem generate_eq_pieces (enabled : Bool) (ty : SensorType) (sensor_id hour month : ℕ)
    (r : Draws) (s : EngineState) :
    ∃ S : EngineState, S.battery = s.battery ∧
      (generate_sensor_data enabled ty sensor_id hour month r s).1.battery_level =
        (simulate_battery_level sensor_id r S).1 ∧
      (generate_sensor_data enabled ty sensor_id hour month r s).2 =
        (simulate_battery_level sensor_id r S).2 ∧
      (∃ v : ℝ, (generate_sensor_data enabled ty sensor_id hour month r s).1.value =
        pyRound3 (clamp_value ty v)) ∧
      (∃ sc : String,
        (generate_sensor_data enabled ty sensor_id hour month r s).1.quality_score =
          calculate_quality_score sc r ∧
        (generate_sensor_data enabled ty sensor_id hour month r s).1.signal_strength =
          simulate_signal_strength sc r) := by
  unfold generate_sensor_data
  dsimp only
  refine ⟨_, ?_, rfl, rfl, ⟨_, rfl⟩, ⟨_, rfl, rfl⟩⟩
  dsimp only
  rw [apply_trends_battery]

theorem generate_call_mem (enabled : Bool) (c : CallInput) (s : EngineState)
    (hr : c.draws.Valid) (hs : BatteryInv s) :
    ReadingInRange c
      (generate_sensor_data enabled c.ty c.sensor_id c.hour c.month c.draws s).1 ∧
    BatteryInv (generate_sensor_data enabled c.ty c.sensor_id c.hour c.month c.draws s).2 := by
  obtain ⟨-, -, -, -, -, -, -, -, -, -, -, -, -, -, -, -, h17, h18, -, -, -, -⟩ := hr
  obtain ⟨S, hSb, hbat1, hbat2, ⟨v, hv⟩, ⟨sc, hq, hsig⟩⟩ :=
    generate_eq_pieces enabled c.ty c.sensor_id c.hour c.month c.draws s
  have hSinv : BatteryInv S := batteryInv_congr hSb hs
  have hbm := simulate_battery_mem c.sensor_id c.draws S h17 h18 hSinv
  constructor
  · refine ⟨?_, ?_, ?_, ?_, ?_, ?_, ?_, ?_⟩
    · rw [hv]; exact (reading_value_mem c.ty v).1
    · rw [hv]; exact (reading_value_mem c.ty v).2
    · rw [hq]; exact (quality_mem_50_100 sc c.draws).1
    · rw [hq]; exact (quality_mem_50_100 sc c.draws).2
    · rw [hbat1]; exact hbm.1
    · rw [hbat1]; exact hbm.2.1
    · rw [hsig]; exact (signal_mem sc c.draws).1
    · rw [hsig]; exact (signal_mem sc c.draws).2
  · rw [hbat2]; exact hbm.2.2

theorem run_calls_mem (enabled : Bool) :
    ∀ (calls : List CallInput) (s : EngineState), BatteryInv s →
      (∀ c ∈ calls, c.draws.Valid) →
      List.Forall₂ ReadingInRange calls (run_calls enabled calls s).1 ∧
      BatteryInv (run_calls enabled calls s).2 := by
  intro calls
  induction calls with
  | nil => exact fun s hs _ => ⟨List.Forall₂.nil, hs⟩
  | cons c rest ih =>
    intro s hs hv
    obtain ⟨hr1, hr2⟩ := generate_call_mem enabled c s (hv c (List.mem_cons_self _ _)) hs
    obtain ⟨ih1, ih2⟩ :=
      ih (generate_sensor_data enabled c.ty c.sensor_id c.hour c.month c.draws s).2 hr2
        (fun d hd => hv d (List.mem_cons_of_mem _ hd))
    unfold run_calls
    dsimp only
    exact ⟨List.Forall₂.cons hr1 ih1, ih2⟩

/-- C4: for every sequence of calls on a fresh engine whose draws are in
range, every produced reading has its value inside
`[profile.min, profile.max]`, `quality_score ∈ [50, 100]`,
`battery_level ∈ [10, 100]` and `signal_strength ∈ [-120, -30]`. -/
theorem every_reading_in_range (enabled : Bool) (calls : List CallInput)
    (hv : ∀ c ∈ calls, c.draws.Valid) :
    List.Forall₂ ReadingInRange calls (run_calls enabled calls initState).1 :=
  (run_calls_mem enabled calls initState (fun _ => by norm_num [initState]) hv).1

/-- C4 witness: a singleton round for a soil-moisture sensor with all draws
`1/2`. -/
theorem every_reading_in_range_witness :
    List.Forall₂ ReadingInRange [⟨SensorType.soil_moisture, 1, 12, 6, drawsHalf⟩]
      (run_calls true [⟨SensorType.soil_moisture, 1, 12, 6, drawsHalf⟩] initState).1 :=
  every_reading_in_range true _ (by
    intro c hc
    simp only [List.mem_singleton] at hc
    subst hc
    norm_num [Draws.Valid, drawsHalf])

/-! ## C5 — the diurnal temperature term -/

theorem temp_modifier_at_14 : temp_modifier 14 = 0 := by
  unfold temp_modifier temp_modifier_with
  rw [if_pos (by norm_num : (6:ℕ) ≤ 14 ∧ (14:ℕ) ≤ 14)]
  norm_num [Real.sin_pi]

theorem temp_modifier_at_10 : temp_modifier 10 = 4 := by
  unfold temp_modifier temp_modifier_with
  rw [if_pos (by norm_num : (6:ℕ) ≤ 10 ∧ (10:ℕ) ≤ 14)]
  have h : (((10:ℕ) : ℝ) - ((6:ℕ) : ℝ)) / (((14:ℕ) : ℝ) - ((6:ℕ) : ℝ)) * Real.pi
      = Real.pi / 2 := by
    push_cast
    ring
  rw [h, Real.sin_pi_div_two]
  norm_num

theorem temp_modifier_le_four (hour : ℕ) : temp_modifier hour ≤ 4 := by
  unfold temp_modifier temp_modifier_with
  split_ifs with h1 h2
  · have := Real.sin_le_one ((((hour:ℕ) : ℝ) - ((6:ℕ) : ℝ)) / (((14:ℕ) : ℝ) - ((6:ℕ) : ℝ)) * Real.pi)
    nlinarith
  · have := Real.neg_one_le_cos (((hour:ℕ) : ℝ) / ((6:ℕ) : ℝ) * Real.pi)
    nlinarith
  · have := Real.neg_one_le_cos ((((hour:ℕ) : ℝ) - ((14:ℕ) : ℝ)) / (24 - ((14:ℕ) : ℝ)) * Real.pi)
    nlinarith

/-- C5 counterexample: at the configured peak hour 14 the half-sine has
completed its arc, so the diurnal term is `sin π * 8 / 2 = 0` — neither
positive nor the maximum over the day; hour 10 already beats it. -/
theorem temp_modifier_hour14_not_max_cx :
    ¬(temp_modifier 10 ≤ temp_modifier 14 ∧ 0 < temp_modifier 14) := by
  rw [temp_modifier_at_10, temp_modifier_at_14]
  norm_num

/-- C5 (amended): with `min_hour = 6`, `max_hour = 14`, `variation = 8`, the
diurnal term attains its maximum over all hours at hour 10 (midway through
the rise window), where it equals `variation / 2 = 4`; at the configured
`max_hour = 14` the term is `0`, not positive. -/
theorem temp_modifier_max_at_10 :
    (∀ hour : ℕ, temp_modifier hour ≤ temp_modifier 10) ∧
    temp_modifier 10 = 4 ∧ temp_modifier 14 = 0 := by
  refine ⟨fun hour => ?_, temp_modifier_at_10, temp_modifier_at_14⟩
  rw [temp_modifier_at_10]
  exact temp_modifier_le_four hour

/-! ## C6 — the status classifier -/

/-- C6: `_calculate_sensor_status` is a pure function of sensor type and
final value and agrees everywhere with the tier map stated by the spec:
for `soil_moisture`, critical iff `value < 25 ∨ value > 85`, warning iff
`25 ≤ value < 40 ∨ 70 < value ≤ 85`, normal otherwise; for every other type,
critical iff the value escapes `[critical_min, critical_max]`, warning iff
not critical and `value < critical_min * 1.2 ∨ value > critical_max * 0.8`,
normal otherwise. -/
theorem status_matches_spec (ty : SensorType) (value : ℝ) :
    calculate_sensor_status ty value = calculate_sensor_status_spec ty value := by
  unfold calculate_sensor_status calculate_sensor_status_spec
  simp only [ge_iff_le, gt_iff_lt]
  split_ifs <;> first | rfl | tauto

/-! ## C10 — the quality score never hits the lower clamp -/

theorem quality_pre_mem (scenario : String) (r : Draws)
    (h1 : 0 ≤ r.tQual) (h2 : r.tQual ≤ 1) (h3 : 0 ≤ r.tQualPen) (h4 : r.tQualPen ≤ 1) :
    80 ≤ quality_pre scenario r ∧ quality_pre scenario r ≤ 100 := by
  unfold quality_pre uniform
  dsimp only
  split_ifs <;> constructor <;> nlinarith

/-- C10: the base quality draw is in `[95, 100]` and the largest scenario
penalty is `15`, so the pre-clamp score is at least `80`: the reported
`quality_score` lies in `[80, 100]` and the lower clamp to `50` is never
active. -/
theorem quality_score_in_80_100 (scenario : String) (r : Draws)
    (h1 : 0 ≤ r.tQual) (h2 : r.tQual ≤ 1) (h3 : 0 ≤ r.tQualPen) (h4 : r.tQualPen ≤ 1) :
    80 ≤ calculate_quality_score scenario r ∧ calculate_quality_score scenario r ≤ 100 ∧
    calculate_quality_score scenario r = min 100 (pyInt (quality_pre scenario r)) := by
  obtain ⟨hlo, hhi⟩ := quality_pre_mem scenario r h1 h2 h3 h4
  have hP : (0:ℝ) ≤ quality_pre scenario r := by linarith
  have hpy : pyInt (quality_pre scenario r) = ⌊quality_pre scenario r⌋ := by
    unfold pyInt
    rw [if_pos hP]
  have hfl_lo : (80:ℤ) ≤ ⌊quality_pre scenario r⌋ := Int.le_floor.mpr (by exact_mod_cast hlo)
  have hfl_hi : ⌊quality_pre scenario r⌋ ≤ (100:ℤ) := by
    have h := Int.floor_le_floor hhi
    simpa using h
  have hmin : min (100:ℤ) ⌊quality_pre scenario r⌋ = ⌊quality_pre scenario r⌋ :=
    min_eq_right hfl_hi
  have hscore : calculate_quality_score scenario r = ⌊quality_pre scenario r⌋ := by
    unfold calculate_quality_score
    rw [hpy, hmin]
    exact max_eq_right (by linarith)
  refine ⟨?_, ?_, ?_⟩
  · rw [hscore]; exact hfl_lo
  · rw [hscore]; exact hfl_hi
  · rw [hscore, hpy, hmin]

/-! ## C8 — disabled jitter means deterministic values -/

/-- C8: with `ENABLE_RANDOM_VARIATIONS` disabled, `_add_random_variation` is
the identity on its value argument, and the generation pipeline is
independent of the jitter draw: two runs that agree on every upstream draw
(scenario, base, trend, health) produce identical readings and states
whatever their jitter draws are. -/
theorem jitter_disabled_deterministic :
    (∀ (ty : SensorType) (value : ℝ) (r : Draws),
      add_random_variation false ty value r = value) ∧
    (∀ (ty : SensorType) (sensor_id hour month : ℕ) (r : Draws) (t : ℝ) (s : EngineState),
      generate_sensor_data false ty sensor_id hour month { r with tJitter := t } s =
        generate_sensor_data false ty sensor_id hour month r s) :=
  ⟨fun _ _ _ => rfl, fun _ _ _ _ _ _ _ => rfl⟩

/-! ## C7 — the trend stage -/

/-- C7: with a recorded `last_value`, the trend stage adds
`direction * U(0.1, 0.3)` and keeps the state untouched when the delta's
sign agrees with the stored direction, and otherwise returns the value
unchanged while re-assigning the stored direction to some element of
`{-1, +1}`; on a first-ever reading the value passes through and a
direction is initialized. -/
theorem apply_trends_characterization
    (ty : SensorType) (value : ℝ) (sensor_id : ℕ) (r : Draws) (s : EngineState)
    (hr : r.Valid) :
    (∀ lv d, s.last_values sensor_id = some lv → s.trend_direction sensor_id = some d →
      ((((value - lv > 0 ∧ d = 1) ∨ (value - lv < 0 ∧ d = -1)) →
        ∃ u : ℝ, 0.1 ≤ u ∧ u ≤ 0.3 ∧
          apply_trends ty value sensor_id r s = (value + (d : ℝ) * u, s)) ∧
       ((d = 1 ∨ d = -1) →
        ¬((value - lv > 0 ∧ d = 1) ∨ (value - lv < 0 ∧ d = -1)) →
        (apply_trends ty value sensor_id r s).1 = value ∧
        ∃ d' : ℤ, (d' = -1 ∨ d' = 1) ∧
          (apply_trends ty value sensor_id r s).2 =
            { s with trend_direction := fun i => if i = sensor_id then some d'
                                                 else s.trend_direction i }))) ∧
    (s.last_values sensor_id = none →
      (apply_trends ty value sensor_id r s).1 = value ∧
      ((apply_trends ty value sensor_id r s).2.trend_direction sensor_id).isSome = true) := by
  obtain ⟨-, -, -, -, -, -, hdI, htT1, htT2, hdR, -⟩ := hr
  constructor
  · intro lv d hl hd
    constructor
    · intro hcond
      have hcode : (value - lv > 0 ∧ d > 0) ∨ (value - lv < 0 ∧ d < 0) := by
        rcases hcond with ⟨h, rfl⟩ | ⟨h, rfl⟩
        · exact Or.inl ⟨h, by norm_num⟩
        · exact Or.inr ⟨h, by norm_num⟩
      refine ⟨uniform 0.1 0.3 r.tTrend, ?_, ?_, ?_⟩
      · unfold uniform; nlinarith
      · unfold uniform; nlinarith
      · simp only [apply_trends_eq_momentum, apply_trends_momentum, hl, hd,
          Option.getD_some, Option.isSome_some, if_true]
        rw [if_pos hcode]
    · intro hd2 hcond
      have hcode_neg : ¬((value - lv > 0 ∧ d > 0) ∨ (value - lv < 0 ∧ d < 0)) := by
        rcases hd2 with rfl | rfl
        · intro hc
          apply hcond
          rcases hc with ⟨h, -⟩ | ⟨-, hneg⟩
          · exact Or.inl ⟨h, rfl⟩
          · norm_num at hneg
        · intro hc
          apply hcond
          rcases hc with ⟨-, hpos⟩ | ⟨h, -⟩
          · norm_num at hpos
          · exact Or.inr ⟨h, rfl⟩
      simp only [apply_trends_eq_momentum, apply_trends_momentum, hl, hd,
        Option.getD_some, Option.isSome_some, if_true]
      rw [if_neg hcode_neg]
      exact ⟨rfl, r.dReroll, hdR, rfl⟩
  · intro hnone
    cases hdir : s.trend_direction sensor_id with
    | some d0 =>
      constructor <;>
        simp [apply_trends_eq_momentum, apply_trends_momentum, hnone, hdir]
    | none =>
      constructor <;>
        simp [apply_trends_eq_momentum, apply_trends_momentum, hnone, hdir]

/-- C7 witness: sensor 1 with last value 5, stored direction `+1`, new value
6 — the delta is positive, so momentum is reinforced. -/
theorem apply_trends_characterization_witness :
    ∃ u : ℝ, 0.1 ≤ u ∧ u ≤ 0.3 ∧
      apply_trends SensorType.soil_moisture 6 1 drawsHalf trendState =
        (6 + ((1:ℤ) : ℝ) * u, trendState) := by
  have h := (apply_trends_characterization SensorType.soil_moisture 6 1 drawsHalf trendState
      (by norm_num [Draws.Valid, drawsHalf])).1 5 1
      (by simp [trendState]) (by simp [trendState])
  exact h.1 (Or.inl ⟨by norm_num, rfl⟩)

/-- C10 witness at `extreme_temp` with all draws `1/2`. -/
theorem quality_score_in_80_100_witness :
    80 ≤ calculate_quality_score "extreme_temp" drawsHalf ∧
    calculate_quality_score "extreme_temp" drawsHalf ≤ 100 ∧
    calculate_quality_score "extreme_temp" drawsHalf =
      min 100 (pyInt (quality_pre "extreme_temp" drawsHalf)) :=
  quality_score_in_80_100 "extreme_temp" drawsHalf (by norm_num [drawsHalf])
    (by norm_num [drawsHalf]) (by norm_num [drawsHalf]) (by norm_num [drawsHalf])

end LoraSim
